import Mathlib

/-!
Verification of the substation diagnostics core (backend/ml).

Numeric values are modelled as rationals (`ℚ`); the Python sources operate on
IEEE doubles, but every claim checked here concerns exact linear formulas,
clipping, rounding and ordering, which the rational model reproduces.
The three machine-learning models (sequence forecaster, boosted-tree
regressor, anomaly detector) are opaque collaborators: their scalar outputs
enter the embedded pipeline as explicit parameters.  The unseeded random
draws (fault choice, timeline steps) are likewise passed in explicitly.
-/

namespace Substation

/-- `np.clip(x, lo, hi)` : `min(hi, max(lo, x))`. -/
def npClip (x lo hi : ℚ) : ℚ := min hi (max lo x)

/-- Clip to the unit interval, the ubiquitous `np.clip(x, 0, 1)`. -/
def clip01 (x : ℚ) : ℚ := npClip x 0 1

/-- Round a rational to the nearest integer, ties to even
(the semantics of Python's built-in `round`). -/
def roundHalfEven (q : ℚ) : ℤ :=
  let f := ⌊q⌋
  let r := q - (f : ℚ)
  if r < 1/2 then f
  else if 1/2 < r then f + 1
  else if f % 2 = 0 then f else f + 1

/-- Python `round(q, n)`: round to `n` decimal places, ties to even. -/
def pyRound (q : ℚ) (n : ℕ) : ℚ :=
  (roundHalfEven (q * 10 ^ n) : ℚ) / 10 ^ n

theorem floor_le_roundHalfEven (q : ℚ) : ⌊q⌋ ≤ roundHalfEven q := by
  unfold roundHalfEven
  dsimp only
  split
  · exact le_refl _
  · split
    · omega
    · split
      · exact le_refl _
      · omega

theorem roundHalfEven_le_ceil (q : ℚ) : roundHalfEven q ≤ ⌈q⌉ := by
  unfold roundHalfEven
  dsimp only
  have hfc : ⌊q⌋ ≤ ⌈q⌉ := Int.floor_le_ceil q
  split
  · exact hfc
  · rename_i h1
    push_neg at h1
    have hql : (⌊q⌋ : ℚ) < q := by linarith
    have : ⌊q⌋ < ⌈q⌉ := Int.lt_ceil.mpr hql
    split
    · omega
    · split
      · exact hfc
      · omega

theorem abs_roundHalfEven_sub (q : ℚ) : |(roundHalfEven q : ℚ) - q| ≤ 1/2 := by
  have hfl : (⌊q⌋ : ℚ) ≤ q := Int.floor_le q
  have hfu : q < (⌊q⌋ : ℚ) + 1 := Int.lt_floor_add_one q
  unfold roundHalfEven
  dsimp only
  split
  · rename_i h1
    rw [abs_le]
    constructor <;> linarith
  · rename_i h1
    push_neg at h1
    split
    · rename_i h2
      push_cast
      rw [abs_le]
      constructor <;> linarith
    · rename_i h2
      push_neg at h2
      have hr : q - (⌊q⌋ : ℚ) = 1/2 := le_antisymm h2 h1
      split
      · rw [abs_le]; constructor <;> linarith
      · push_cast
        rw [abs_le]
        constructor <;> linarith

theorem le_pyRound {m : ℤ} {x : ℚ} (n : ℕ) (h : (m : ℚ) ≤ x) :
    (m : ℚ) ≤ pyRound x n := by
  unfold pyRound
  have hp : (0 : ℚ) < 10 ^ n := by positivity
  rw [le_div_iff₀ hp]
  have h1 : (m : ℚ) * 10 ^ n ≤ x * 10 ^ n := by
    exact mul_le_mul_of_nonneg_right h (le_of_lt hp)
  have h2 : (m * 10 ^ n : ℤ) ≤ ⌊x * 10 ^ n⌋ := by
    apply Int.le_floor.mpr
    push_cast
    exact h1
  have h3 : (m * 10 ^ n : ℤ) ≤ roundHalfEven (x * 10 ^ n) :=
    le_trans h2 (floor_le_roundHalfEven _)
  calc (m : ℚ) * 10 ^ n = ((m * 10 ^ n : ℤ) : ℚ) := by push_cast; ring
    _ ≤ (roundHalfEven (x * 10 ^ n) : ℚ) := by exact_mod_cast h3

theorem pyRound_le {m : ℤ} {x : ℚ} (n : ℕ) (h : x ≤ (m : ℚ)) :
    pyRound x n ≤ (m : ℚ) := by
  unfold pyRound
  have hp : (0 : ℚ) < 10 ^ n := by positivity
  rw [div_le_iff₀ hp]
  have h1 : x * 10 ^ n ≤ (m : ℚ) * 10 ^ n := by
    exact mul_le_mul_of_nonneg_right h (le_of_lt hp)
  have h2 : ⌈x * 10 ^ n⌉ ≤ (m * 10 ^ n : ℤ) := by
    apply Int.ceil_le.mpr
    push_cast
    exact h1
  have h3 : roundHalfEven (x * 10 ^ n) ≤ (m * 10 ^ n : ℤ) :=
    le_trans (roundHalfEven_le_ceil _) h2
  calc (roundHalfEven (x * 10 ^ n) : ℚ) ≤ ((m * 10 ^ n : ℤ) : ℚ) := by exact_mod_cast h3
    _ = (m : ℚ) * 10 ^ n := by push_cast; ring

theorem abs_pyRound_sub (n : ℕ) (x : ℚ) :
    |pyRound x n - x| ≤ 1 / (2 * 10 ^ n) := by
  unfold pyRound
  have hp : (0 : ℚ) < 10 ^ n := by positivity
  have h := abs_roundHalfEven_sub (x * 10 ^ n)
  have key : (roundHalfEven (x * 10 ^ n) : ℚ) / 10 ^ n - x
      = ((roundHalfEven (x * 10 ^ n) : ℚ) - x * 10 ^ n) / 10 ^ n := by
    field_simp
    ring
  rw [key, abs_div, abs_of_pos hp, div_le_iff₀ hp]
  calc |(roundHalfEven (x * 10 ^ n) : ℚ) - x * 10 ^ n| ≤ 1/2 := h
    _ = 1 / (2 * 10 ^ n) * 10 ^ n := by field_simp

theorem clip01_nonneg (x : ℚ) : 0 ≤ clip01 x := by
  unfold clip01 npClip
  exact le_min (by norm_num) (le_max_left 0 x)

theorem clip01_le_one (x : ℚ) : clip01 x ≤ 1 := min_le_left 1 _

theorem npClip_le {x lo hi : ℚ} : npClip x lo hi ≤ hi := min_le_left hi _

theorem le_npClip {x lo hi : ℚ} (h : lo ≤ hi) : lo ≤ npClip x lo hi :=
  le_min h (le_max_left lo x)

/-- First-match lookup in an association list, with a default:
Python's `d.get(key, default)` for a dict literal. -/
def dictGetD {β : Type} (m : List (String × β)) (k : String) (d : β) : β :=
  match m with
  | [] => d
  | (k', v) :: rest => if k = k' then v else dictGetD rest k d

/-- `FAULT_LIBRARY` from `predict_shared.py`: per-component list of
(fault name, affected subpart) pairs, in declaration order. -/
def FAULT_LIBRARY : List (String × List (String × Option String)) :=
  [ ("bayLines",
      [ ("Power Swing / Stability Risk", some "Line section A"),
        ("Voltage Sag", some "PT circuit"),
        ("Current Unbalance", some "CT core") ]),
    ("transformer",
      [ ("Winding Hotspot", some "HV winding"),
        ("Oil Degradation", some "Main tank"),
        ("Tap Changer Wear", some "OLTC compartment") ]),
    ("circuitBreaker",
      [ ("Slow Operating Mechanism", some "Spring drive"),
        ("SF6 Leak", some "Tank"),
        ("Contact Wear", some "Arcing contact") ]),
    ("busbar",
      [ ("Thermal Hotspot", some "Section-2"),
        ("Shield Connection Loose", some "Spacer clamp"),
        ("Overload Risk", some "Phase B") ]),
    ("isolator",
      [ ("Drive Torque Drop", some "Drive shaft"),
        ("Contact Resistance Rise", some "Jaw contact"),
        ("Motor Stall", some "Motor unit") ]),
    ("relay",
      [ ("Firmware Fault", some "CPU board"),
        ("Incorrect Settings", some "Zone-2 reach") ]),
    ("pmu",
      [ ("GPS Unlock", some "Time sync module"),
        ("Phasor Drift", some "ADC board") ]),
    ("gis",
      [ ("Partial Discharge", some "Compartment C1"),
        ("SF6 Moisture Rise", some "Compartment C3") ]),
    ("battery",
      [ ("Cell Imbalance", some "String-1"),
        ("Float Voltage Drop", some "Charger unit") ]),
    ("environment",
      [ ("Thermal Stress", some "Ambient"),
        ("Humidity Spike", some "Control room") ]) ]

/-- The component's fault library, with the fallback entry used by
`pick_fault_from_probability` when the key is unknown. -/
def faultLibraryOf (component : String) : List (String × Option String) :=
  dictGetD FAULT_LIBRARY component [("Undefined Condition", none)]

/-- `pick_fault_from_probability` from `predict_models.py`.  The unseeded
`random.choice` draw is modelled by the explicit index `choice`, reduced
modulo the library length. -/
def pick_fault_from_probability (component : String) (probability : ℚ)
    (choice : ℕ) : String × Option String :=
  if probability < 0.55 then ("Normal", none)
  else
    let library := faultLibraryOf component
    library.getD (choice % library.length) ("Undefined Condition", none)

/-- The loop body of `generate_timeline_prediction`: starting from the
unrounded current value, iterate `n` more steps, reading the random
uniform(-5, 5) draws from `steps` beginning at index `i`.  Each iteration
clamps to [10, 150] and reports the 2-decimal rounding, while the walk
itself continues from the unrounded clamped value. -/
def timelineAux (steps : ℕ → ℚ) : ℚ → ℕ → ℕ → List ℚ
  | _, _, 0 => []
  | current, i, n + 1 =>
      let c := max 10 (min 150 (current + steps i))
      pyRound c 2 :: timelineAux steps c (i + 1) n

/-- `generate_timeline_prediction(base_value, hours)` from
`predict_models.py`, with the random draws passed in as `steps`. -/
def generate_timeline_prediction (base_value : ℚ) (hours : ℕ)
    (steps : ℕ → ℚ) : List ℚ :=
  timelineAux steps base_value 0 hours

/-- The walk's internal (clamped, unrounded) value after `j + 1` updates
starting from `base_value`. -/
def timelineCurrent (base_value : ℚ) (steps : ℕ → ℚ) : ℕ → ℚ
  | 0 => max 10 (min 150 (base_value + steps 0))
  | j + 1 => max 10 (min 150 (timelineCurrent base_value steps j + steps (j + 1)))

/-- Python `sorted(items, key=lambda x: x[1], reverse=True)`:
a stable sort, descending in the second component. -/
def sortedByValDesc (l : List (String × ℚ)) : List (String × ℚ) :=
  l.mergeSort (fun a b => decide (b.2 ≤ a.2))

/-- The shape of the result dictionary assembled by each real-model
predictor (`predict_transformer.py` etc., STEP 8 onwards).  The
`timestamp`, `explanation`, `live_readings` and `asset_metadata` entries
are omitted: no claim refers to them and the timestamp is environmental. -/
structure Result where
  component : String
  fault_probability : ℚ
  health_index : ℚ
  predicted_fault : String
  affected_subpart : Option String
  timeline_prediction : List ℚ
  LSTM_ForecastScore : ℚ
  IsolationForestScore : ℤ
  XGBoost_FaultScore : ℚ
  Top3_HealthImpactFactors : List String

/-- Python truthiness of an optional string argument (`None` and `""` are
falsy). -/
def strTruthy : Option String → Bool
  | none => false
  | some s => !s.isEmpty

/-- Python truthiness of the optional `input_data` dict (`None` and `{}`
are falsy). -/
def dictTruthy : Option (List (String × ℚ)) → Bool
  | none => false
  | some l => !l.isEmpty

/-- Which path a `predict` call takes. -/
inductive PredictPath where
  | direct (data : List (String × ℚ)) : PredictPath
  | legacy (area_code substation_id : String) : PredictPath
deriving DecidableEq

/-- The mode dispatch at the top of `predict` — lines 34–45, identical in
`predict_transformer.py`, `predict_breaker.py`, `predict_busbar.py` and
`predict_bayline.py`: `if input_data:` selects direct mode, otherwise the
legacy branch requires both `area_code` and `substation_id` and raises
`ValueError` when either is missing. -/
def modeDispatch (area_code substation_id : Option String)
    (input_data : Option (List (String × ℚ))) : Except String PredictPath :=
  if dictTruthy input_data then
    Except.ok (PredictPath.direct (input_data.getD []))
  else if !strTruthy area_code || !strTruthy substation_id then
    Except.error "Either input_data or both area_code and substation_id must be provided"
  else
    Except.ok (PredictPath.legacy (area_code.getD "") (substation_id.getD ""))

end Substation

namespace Substation.Transformer

/-- The raw readings consumed by `predict_transformer.py` after the data
dictionary is assembled (direct mode supplies them; legacy mode fills
defaults). -/
structure Data where
  live_OilTemperature_C : ℚ
  live_WindingTemperature_C : ℚ
  live_LoadingPercent : ℚ
  live_Hydrogen_ppm : ℚ
  live_Acetylene_ppm : ℚ
  live_Moisture_ppm : ℚ
  live_OilLevelPercent : ℚ
  live_TapPosition : ℚ
  installationYear : ℚ

def CURRENT_YEAR : ℚ := 2025

/-- STEP 1 of `predict_transformer.py`: the normalized features are plain
linear ratios; note this file, unlike the other three predictors, applies
no clip to them. -/
def oil_temp_norm (d : Data) : ℚ := d.live_OilTemperature_C / 100

def wind_temp_norm (d : Data) : ℚ := d.live_WindingTemperature_C / 120

def loading_norm (d : Data) : ℚ := d.live_LoadingPercent / 150

def h2_norm (d : Data) : ℚ := d.live_Hydrogen_ppm / 300

def c2h2_norm (d : Data) : ℚ := d.live_Acetylene_ppm / 50

def moist_norm (d : Data) : ℚ := d.live_Moisture_ppm / 30

def level_norm (d : Data) : ℚ := d.live_OilLevelPercent / 100

def tap_norm (d : Data) : ℚ := d.live_TapPosition / 17

def asset_aging (d : Data) : ℚ :=
  clip01 ((CURRENT_YEAR - d.installationYear) / 40)

def env_stress (d : Data) : ℚ :=
  clip01 (0.25 * oil_temp_norm d + 0.25 * wind_temp_norm d
    + 0.25 * loading_norm d + 0.25 * moist_norm d)

/-- STEP 5: pre-fusion fault probability. -/
def fault_prob (d : Data) : ℚ :=
  clip01 (0.30 * oil_temp_norm d + 0.25 * wind_temp_norm d
    + 0.20 * loading_norm d + 0.15 * moist_norm d + 0.10 * asset_aging d)

/-- STEP 6: fused fault probability. -/
def combined_fault (d : Data) : ℚ :=
  clip01 (0.50 * fault_prob d + 0.30 * env_stress d + 0.20 * asset_aging d)

/-- STEP 7: health index. -/
def health_index (d : Data) : ℚ :=
  npClip (100 - 20 * oil_temp_norm d - 20 * wind_temp_norm d
    - 20 * loading_norm d - 20 * moist_norm d - 20 * asset_aging d) 0 100

/-- STEP 8: the impact-factor dict, in declaration order. -/
def impact_factors (d : Data) : List (String × ℚ) :=
  [ ("OilTemperature", 20 * oil_temp_norm d),
    ("WindingTemperature", 20 * wind_temp_norm d),
    ("LoadingPercent", 20 * loading_norm d),
    ("Moisture", 20 * moist_norm d),
    ("Aging", 20 * asset_aging d) ]

def top3_factors (d : Data) : List String :=
  ((sortedByValDesc (impact_factors d)).take 3).map Prod.fst

/-- The result assembled by `predict_transformer.py` in the fields the
claims refer to.  `lstm_forecast`, `xgb_fault_score` and `iso_raw` are the
outputs of the three opaque models; `choice` and `steps` stand for the
unseeded random draws. -/
def predictResult (d : Data) (lstm_forecast xgb_fault_score : ℚ)
    (iso_raw : ℤ) (choice : ℕ) (steps : ℕ → ℚ) : Result :=
  let iso_score : ℤ := if iso_raw = 1 then 0 else 1
  let fault_info := pick_fault_from_probability "transformer" (fault_prob d) choice
  { component := "transformer"
    fault_probability := pyRound (combined_fault d) 3
    health_index := pyRound (health_index d) 2
    predicted_fault := fault_info.1
    affected_subpart := fault_info.2
    timeline_prediction := generate_timeline_prediction lstm_forecast 24 steps
    LSTM_ForecastScore := pyRound lstm_forecast 2
    IsolationForestScore := iso_score
    XGBoost_FaultScore := pyRound xgb_fault_score 3
    Top3_HealthImpactFactors := top3_factors d }

end Substation.Transformer

namespace Substation.CircuitBreaker

/-- Raw readings of `predict_breaker.py`. -/
structure Data where
  live_OperationTime_ms : ℚ
  live_SF6Pressure_bar : ℚ
  live_MotorCurrent_A : ℚ
  installationYear : ℚ

def CURRENT_YEAR : ℚ := 2025

/-- STEP 1: normalized then clipped (the source assigns the ratio and then
reassigns its `np.clip`). -/
def op_time_norm (d : Data) : ℚ := clip01 (d.live_OperationTime_ms / 200)

def sf6_norm (d : Data) : ℚ :=
  clip01 ((d.live_SF6Pressure_bar - 5.5) / (8 - 5.5))

def motor_current_norm (d : Data) : ℚ := clip01 (d.live_MotorCurrent_A / 20)

def asset_aging (d : Data) : ℚ :=
  clip01 ((CURRENT_YEAR - d.installationYear) / 40)

def op_stress (d : Data) : ℚ :=
  clip01 (0.40 * op_time_norm d + 0.35 * (1 - sf6_norm d)
    + 0.25 * motor_current_norm d)

def fault_prob (d : Data) : ℚ :=
  clip01 (0.35 * op_time_norm d + 0.30 * (1 - sf6_norm d)
    + 0.20 * motor_current_norm d + 0.15 * asset_aging d)

def combined_fault (d : Data) : ℚ :=
  clip01 (0.50 * fault_prob d + 0.30 * op_stress d + 0.20 * asset_aging d)

def health_index (d : Data) : ℚ :=
  npClip (100 - 30 * op_time_norm d - 30 * (1 - sf6_norm d)
    - 25 * motor_current_norm d - 15 * asset_aging d) 0 100

def impact_factors (d : Data) : List (String × ℚ) :=
  [ ("OperationTime", 30 * op_time_norm d),
    ("SF6Pressure", 30 * (1 - sf6_norm d)),
    ("MotorCurrent", 25 * motor_current_norm d),
    ("Aging", 15 * asset_aging d) ]

def top3_factors (d : Data) : List String :=
  ((sortedByValDesc (impact_factors d)).take 3).map Prod.fst

def predictResult (d : Data) (lstm_forecast xgb_fault_score : ℚ)
    (iso_raw : ℤ) (choice : ℕ) (steps : ℕ → ℚ) : Result :=
  let iso_score : ℤ := if iso_raw = 1 then 0 else 1
  let fault_info := pick_fault_from_probability "circuitBreaker" (fault_prob d) choice
  { component := "circuitBreaker"
    fault_probability := pyRound (combined_fault d) 3
    health_index := pyRound (health_index d) 2
    predicted_fault := fault_info.1
    affected_subpart := fault_info.2
    timeline_prediction := generate_timeline_prediction lstm_forecast 24 steps
    LSTM_ForecastScore := pyRound lstm_forecast 2
    IsolationForestScore := iso_score
    XGBoost_FaultScore := pyRound xgb_fault_score 3
    Top3_HealthImpactFactors := top3_factors d }

end Substation.CircuitBreaker

namespace Substation.Busbar

/-- Raw readings of `predict_busbar.py`. -/
structure Data where
  live_BusVoltage_kV : ℚ
  live_BusCurrent_A : ℚ
  live_BusTemperature_C : ℚ
  installationYear : ℚ

def CURRENT_YEAR : ℚ := 2025

def voltage_norm (d : Data) : ℚ :=
  clip01 ((d.live_BusVoltage_kV - 380) / (420 - 380))

def current_norm (d : Data) : ℚ := clip01 (d.live_BusCurrent_A / 5000)

def temp_norm (d : Data) : ℚ := clip01 (d.live_BusTemperature_C / 100)

def asset_aging (d : Data) : ℚ :=
  clip01 ((CURRENT_YEAR - d.installationYear) / 40)

def thermal_stress (d : Data) : ℚ :=
  clip01 (0.40 * temp_norm d + 0.35 * current_norm d
    + 0.25 * (1 - voltage_norm d))

def fault_prob (d : Data) : ℚ :=
  clip01 (0.35 * temp_norm d + 0.30 * current_norm d
    + 0.20 * (1 - voltage_norm d) + 0.15 * asset_aging d)

def combined_fault (d : Data) : ℚ :=
  clip01 (0.50 * fault_prob d + 0.30 * thermal_stress d + 0.20 * asset_aging d)

def health_index (d : Data) : ℚ :=
  npClip (100 - 30 * temp_norm d - 30 * current_norm d
    - 20 * (1 - voltage_norm d) - 20 * asset_aging d) 0 100

def impact_factors (d : Data) : List (String × ℚ) :=
  [ ("BusTemperature", 30 * temp_norm d),
    ("BusCurrent", 30 * current_norm d),
    ("BusVoltage", 20 * (1 - voltage_norm d)),
    ("Aging", 20 * asset_aging d) ]

def top3_factors (d : Data) : List String :=
  ((sortedByValDesc (impact_factors d)).take 3).map Prod.fst

def predictResult (d : Data) (lstm_forecast xgb_fault_score : ℚ)
    (iso_raw : ℤ) (choice : ℕ) (steps : ℕ → ℚ) : Result :=
  let iso_score : ℤ := if iso_raw = 1 then 0 else 1
  let fault_info := pick_fault_from_probability "busbar" (fault_prob d) choice
  { component := "busbar"
    fault_probability := pyRound (combined_fault d) 3
    health_index := pyRound (health_index d) 2
    predicted_fault := fault_info.1
    affected_subpart := fault_info.2
    timeline_prediction := generate_timeline_prediction lstm_forecast 24 steps
    LSTM_ForecastScore := pyRound lstm_forecast 2
    IsolationForestScore := iso_score
    XGBoost_FaultScore := pyRound xgb_fault_score 3
    Top3_HealthImpactFactors := top3_factors d }

end Substation.Busbar

namespace Substation.BayLine

/-- Raw readings of `predict_bayline.py`. -/
structure Data where
  live_BusVoltage_kV : ℚ
  live_LineCurrent_A : ℚ
  live_ActivePower_MW : ℚ
  live_ReactivePower_MVAR : ℚ
  live_PowerFactor : ℚ
  live_Frequency_Hz : ℚ
  live_THD_percent : ℚ
  installationYear : ℚ

def CURRENT_YEAR : ℚ := 2025

def voltage_norm (d : Data) : ℚ :=
  clip01 ((d.live_BusVoltage_kV - 380) / (420 - 380))

def current_norm (d : Data) : ℚ := clip01 (d.live_LineCurrent_A / 3000)

def power_norm (d : Data) : ℚ := clip01 (d.live_ActivePower_MW / 1500)

def reactive_norm (d : Data) : ℚ := clip01 (|d.live_ReactivePower_MVAR| / 500)

def pf_norm (d : Data) : ℚ := clip01 ((1 - d.live_PowerFactor) / 0.5)

def freq_norm (d : Data) : ℚ := clip01 (|d.live_Frequency_Hz - 50| / 0.5)

def thd_norm (d : Data) : ℚ := clip01 (d.live_THD_percent / 8)

def asset_aging (d : Data) : ℚ :=
  clip01 ((CURRENT_YEAR - d.installationYear) / 40)

def pq_stress (d : Data) : ℚ :=
  clip01 (0.25 * current_norm d + 0.20 * power_norm d + 0.20 * pf_norm d
    + 0.15 * freq_norm d + 0.10 * thd_norm d + 0.10 * (1 - voltage_norm d))

def fault_prob (d : Data) : ℚ :=
  clip01 (0.20 * current_norm d + 0.20 * power_norm d + 0.15 * pf_norm d
    + 0.15 * freq_norm d + 0.15 * thd_norm d + 0.10 * (1 - voltage_norm d)
    + 0.05 * asset_aging d)

def combined_fault (d : Data) : ℚ :=
  clip01 (0.50 * fault_prob d + 0.30 * pq_stress d + 0.20 * asset_aging d)

def health_index (d : Data) : ℚ :=
  npClip (100 - 20 * current_norm d - 20 * power_norm d - 15 * pf_norm d
    - 15 * freq_norm d - 15 * thd_norm d - 10 * (1 - voltage_norm d)
    - 5 * asset_aging d) 0 100

def impact_factors (d : Data) : List (String × ℚ) :=
  [ ("LineCurrent", 20 * current_norm d),
    ("ActivePower", 20 * power_norm d),
    ("PowerFactor", 15 * pf_norm d),
    ("Frequency", 15 * freq_norm d),
    ("THD", 15 * thd_norm d),
    ("BusVoltage", 10 * (1 - voltage_norm d)),
    ("Aging", 5 * asset_aging d) ]

def top3_factors (d : Data) : List String :=
  ((sortedByValDesc (impact_factors d)).take 3).map Prod.fst

def predictResult (d : Data) (lstm_forecast xgb_fault_score : ℚ)
    (iso_raw : ℤ) (choice : ℕ) (steps : ℕ → ℚ) : Result :=
  let iso_score : ℤ := if iso_raw = 1 then 0 else 1
  let fault_info := pick_fault_from_probability "bayLines" (fault_prob d) choice
  { component := "bayLines"
    fault_probability := pyRound (combined_fault d) 3
    health_index := pyRound (health_index d) 2
    predicted_fault := fault_info.1
    affected_subpart := fault_info.2
    timeline_prediction := generate_timeline_prediction lstm_forecast 24 steps
    LSTM_ForecastScore := pyRound lstm_forecast 2
    IsolationForestScore := iso_score
    XGBoost_FaultScore := pyRound xgb_fault_score 3
    Top3_HealthImpactFactors := top3_factors d }

end Substation.BayLine

namespace Substation

/-- Dynamic Python values, as far as `utils_preprocess.merge_inputs`
manipulates them. -/
inductive PyVal where
  | none : PyVal
  | int (n : ℤ) : PyVal
  | str (s : String) : PyVal
  | list (xs : List PyVal) : PyVal
  | dict (entries : List (String × PyVal)) : PyVal

/-- First-match key lookup inside a dict's entry list. -/
def pyLookup : List (String × PyVal) → String → Option PyVal
  | [], _ => Option.none
  | (k', v) :: rest, k => if k = k' then some v else pyLookup rest k

/-- Python `v.get(k, default)`: succeeds on dicts, raises `AttributeError`
on every other value (including `None`). -/
def pyGet (v : PyVal) (k : String) (dflt : PyVal) : Except String PyVal :=
  match v with
  | .dict es => Except.ok ((pyLookup es k).getD dflt)
  | _ => Except.error "AttributeError"

/-- Python truthiness, for `live or {}`. -/
def pyTruthy : PyVal → Bool
  | .none => false
  | .int n => decide (n ≠ 0)
  | .str s => !s.isEmpty
  | .list xs => !xs.isEmpty
  | .dict es => !es.isEmpty

/-- `merge_inputs` from `utils_preprocess.py`.  `assets` and `master` are
guarded by `isinstance(asset, dict)`; the `conditionAssessment`,
`maintenanceHistory` and `operationHistory` lookups call `asset.get`
unguarded, so a non-dict `asset` raises `AttributeError` there. -/
def merge_inputs (live asset : PyVal) : Except String PyVal := do
  let assets : PyVal :=
    match asset with
    | .dict es => (pyLookup es "assets").getD (.dict [])
    | _ => .dict []
  let master : PyVal :=
    match asset with
    | .dict es => (pyLookup es "master").getD (.dict [])
    | _ => .dict []
  let condition ← pyGet asset "conditionAssessment" (.dict [])
  let maintenance ← pyGet asset "maintenanceHistory" (.list [])
  let operation ← pyGet asset "operationHistory" (.list [])
  let instYear ← pyGet master "installationYear" PyVal.none
  pure (.dict
    [ ("live", if pyTruthy live then live else .dict []),
      ("asset_info", assets),
      ("condition", condition),
      ("maintenanceHistory", maintenance),
      ("operationHistory", operation),
      ("installationYear", instYear),
      ("metadata", master) ])

/-- The two typed failures of `load_models` in `predict_models.py`:
`FileNotFoundError` for an absent artifact, `ValueError` when the LSTM
artifact exists but cannot be deserialized even after the compatibility
retry. -/
inductive LoadErr where
  | fileNotFound (message : String) : LoadErr
  | valueError (path : String) : LoadErr
deriving DecidableEq

/-- Python `str.capitalize()`. -/
def pyCapitalize (s : String) : String :=
  match s.data with
  | [] => ""
  | c :: cs => String.mk (c.toUpper :: cs.map Char.toLower)

/-- Python `str.lower()`. -/
def pyLower (s : String) : String := String.mk (s.data.map Char.toLower)

/-- The `model_config` table of `load_models`, with its capitalize/lower
fallback for unknown component names.  Returns (file prefix, folder). -/
def modelConfig (component_name : String) : String × String :=
  dictGetD
    [ ("transformer", ("Transformer", "transformer")),
      ("isolator", ("Isolator", "isolator")),
      ("busbar", ("Busbar", "busbar")),
      ("bayline", ("BayLine", "baylines")),
      ("bayLines", ("BayLine", "baylines")),
      ("circuitBreaker", ("CircuitBreaker", "circuitbreaker")),
      ("breaker", ("CircuitBreaker", "circuitbreaker")) ]
    component_name
    (pyCapitalize component_name, pyLower component_name)

/-- Resolution of the model directory: the component folder if it exists,
else the model root. -/
def resolvedDir (isDir : String → Bool) (modelRoot component_name : String) :
    String :=
  let d := modelRoot ++ "/" ++ (modelConfig component_name).2
  if isDir d then d else modelRoot

def lstmPath (isDir : String → Bool) (modelRoot component_name : String) :
    String :=
  resolvedDir isDir modelRoot component_name ++ "/"
    ++ (modelConfig component_name).1 ++ "_LSTM.h5"

def xgbPath (isDir : String → Bool) (modelRoot component_name : String) :
    String :=
  resolvedDir isDir modelRoot component_name ++ "/"
    ++ (modelConfig component_name).1 ++ "_XGBoost.json"

def isoPath (isDir : String → Bool) (modelRoot component_name : String) :
    String :=
  resolvedDir isDir modelRoot component_name ++ "/"
    ++ (modelConfig component_name).1 ++ "_IsolationForest.pkl"

/-- `load_models` from `predict_models.py`, over an abstract file system
(`fileExists` = `os.path.exists`, `isDir` = `os.path.isdir`) and an
abstract deserializer outcome `lstmLoadable` (true when Keras loading
succeeds on the first try or on the documented `custom_objects` retry).
The XGBoost and joblib deserializers are opaque external collaborators
and are modelled as succeeding; on success the three artifact paths that
were loaded are returned as stand-ins for the opaque model objects. -/
def load_models (fileExists isDir lstmLoadable : String → Bool)
    (modelRoot component_name : String) :
    Except LoadErr (String × String × String) :=
  let lstm_path := lstmPath isDir modelRoot component_name
  if fileExists lstm_path then
    if lstmLoadable lstm_path then
      let xgb_path := xgbPath isDir modelRoot component_name
      if fileExists xgb_path then
        let iso_path := isoPath isDir modelRoot component_name
        if fileExists iso_path then
          Except.ok (lstm_path, xgb_path, iso_path)
        else Except.error (.fileNotFound ("Isolation Forest model not found: " ++ iso_path))
      else Except.error (.fileNotFound ("XGBoost model not found: " ++ xgb_path))
    else Except.error (.valueError lstm_path)
  else Except.error (.fileNotFound ("LSTM model not found: " ++ lstm_path))

theorem sortedByValDesc_perm (l : List (String × ℚ)) :
    (sortedByValDesc l).Perm l :=
  List.mergeSort_perm l _

theorem leDesc_trans (a b c : String × ℚ)
    (hab : (decide (b.2 ≤ a.2) : Bool)) (hbc : (decide (c.2 ≤ b.2) : Bool)) :
    (decide (c.2 ≤ a.2) : Bool) := by
  simp only [decide_eq_true_eq] at *
  exact le_trans hbc hab

theorem leDesc_total (a b : String × ℚ) :
    ((decide (b.2 ≤ a.2) : Bool) || (decide (a.2 ≤ b.2) : Bool)) := by
  simp only [Bool.or_eq_true, decide_eq_true_eq]
  exact le_total b.2 a.2

theorem sortedByValDesc_pairwise (l : List (String × ℚ)) :
    (sortedByValDesc l).Pairwise (fun a b => b.2 ≤ a.2) := by
  have h : (sortedByValDesc l).Pairwise
      (fun a b : String × ℚ => (decide (b.2 ≤ a.2) : Bool)) :=
    List.sorted_mergeSort leDesc_trans leDesc_total l
  exact h.imp (fun hab => of_decide_eq_true hab)

/-- Stability of the Python sort: filtering the sorted list down to the
entries carrying any one value yields them in their original relative
order. -/
theorem sortedByValDesc_stable (l : List (String × ℚ)) (v : ℚ) :
    (sortedByValDesc l).filter (fun p => decide (p.2 = v))
      = l.filter (fun p => decide (p.2 = v)) := by
  set pred : (String × ℚ) → Bool := fun p => decide (p.2 = v) with hpred
  have hc_pair : (l.filter pred).Pairwise
      (fun a b : String × ℚ => (decide (b.2 ≤ a.2) : Bool)) := by
    apply List.pairwise_of_forall_mem_list
    intro a ha b hb
    have ha2 : a.2 = v := by
      have := List.of_mem_filter ha
      simpa [hpred] using this
    have hb2 : b.2 = v := by
      have := List.of_mem_filter hb
      simpa [hpred] using this
    simp [ha2, hb2]
  have hsub : List.Sublist (l.filter pred) (sortedByValDesc l) :=
    List.sublist_mergeSort leDesc_trans leDesc_total hc_pair (List.filter_sublist l)
  have hself : (l.filter pred).filter pred = l.filter pred :=
    List.filter_eq_self.mpr (fun a ha => List.of_mem_filter ha)
  have hsub2 : List.Sublist (l.filter pred) ((sortedByValDesc l).filter pred) := by
    have := hsub.filter pred
    rwa [hself] at this
  have hperm : List.Perm ((sortedByValDesc l).filter pred) (l.filter pred) :=
    (sortedByValDesc_perm l).filter pred
  exact ((hsub2.eq_of_length hperm.length_eq.symm).symm)

theorem pairwise_take_drop {α : Type} {R : α → α → Prop} {l : List α}
    (h : l.Pairwise R) (n : ℕ) :
    ∀ a ∈ l.take n, ∀ b ∈ l.drop n, R a b := by
  have h' : (l.take n ++ l.drop n).Pairwise R := by
    rwa [List.take_append_drop]
  exact fun a ha b hb => (List.pairwise_append.mp h').2.2 a ha b hb

/-- What the spec asks of the reported top-3 impact-factor names: they are
the first components of the 3 largest entries of the factor list, in
descending value order, with ties kept in declaration order (a stable
descending arrangement of the factor list, truncated to 3). -/
def IsTop3Report (factors : List (String × ℚ)) (names : List String) : Prop :=
  ∃ s : List (String × ℚ),
    s.Perm factors ∧
    s.Pairwise (fun a b => b.2 ≤ a.2) ∧
    (∀ v : ℚ, s.filter (fun p => decide (p.2 = v))
        = factors.filter (fun p => decide (p.2 = v))) ∧
    (∀ a ∈ s.take 3, ∀ b ∈ s.drop 3, b.2 ≤ a.2) ∧
    names = (s.take 3).map Prod.fst ∧
    names.length = min 3 factors.length

theorem timelineAux_length (steps : ℕ → ℚ) :
    ∀ (n : ℕ) (current : ℚ) (i : ℕ), (timelineAux steps current i n).length = n := by
  intro n
  induction n with
  | zero => intro current i; rfl
  | succ m ih =>
      intro current i
      simp only [timelineAux, List.length_cons, ih]

theorem timelineAux_bounds (steps : ℕ → ℚ) :
    ∀ (n : ℕ) (current : ℚ) (i : ℕ), ∀ x ∈ timelineAux steps current i n,
      10 ≤ x ∧ x ≤ 150 ∧ ∃ k : ℤ, x = (k : ℚ) / 100 := by
  intro n
  induction n with
  | zero => intro current i x hx; cases hx
  | succ m ih =>
      intro current i x hx
      simp only [timelineAux, List.mem_cons] at hx
      rcases hx with hx | hx
      · subst hx
        set c := max 10 (min 150 (current + steps i)) with hc
        have h10 : (10 : ℚ) ≤ c := le_max_left _ _
        have h150 : c ≤ 150 :=
          max_le (by norm_num) (min_le_left _ _)
        refine ⟨?_, ?_, ⟨roundHalfEven (c * 10 ^ 2), ?_⟩⟩
        · have := le_pyRound (m := 10) 2 (x := c) (by exact_mod_cast h10)
          exact_mod_cast this
        · have := pyRound_le (m := 150) 2 (x := c) (by exact_mod_cast h150)
          exact_mod_cast this
        · unfold pyRound
          norm_num
      · exact ih _ _ x hx

/-- The clamped internal value after `j + 1` loop iterations when the loop
starts at value `current` and step index `i`. -/
def currentSeq (steps : ℕ → ℚ) (current : ℚ) (i : ℕ) : ℕ → ℚ
  | 0 => max 10 (min 150 (current + steps i))
  | j + 1 => max 10 (min 150 (currentSeq steps current i j + steps (i + j + 1)))

theorem currentSeq_shift (steps : ℕ → ℚ) (current : ℚ) (i : ℕ) :
    ∀ j : ℕ, currentSeq steps current i (j + 1)
      = currentSeq steps (max 10 (min 150 (current + steps i))) (i + 1) j := by
  intro j
  induction j with
  | zero => simp [currentSeq]
  | succ m ih =>
      have harith : i + (m + 1) + 1 = i + 1 + m + 1 := by omega
      calc currentSeq steps current i (m + 1 + 1)
          = max 10 (min 150 (currentSeq steps current i (m + 1) + steps (i + (m + 1) + 1))) := rfl
        _ = max 10 (min 150 (currentSeq steps (max 10 (min 150 (current + steps i))) (i + 1) m
              + steps (i + 1 + m + 1))) := by rw [ih, harith]
        _ = currentSeq steps (max 10 (min 150 (current + steps i))) (i + 1) (m + 1) := rfl

theorem timelineAux_eq_map (steps : ℕ → ℚ) :
    ∀ (n : ℕ) (current : ℚ) (i : ℕ),
      timelineAux steps current i n
        = (List.range n).map (fun j => pyRound (currentSeq steps current i j) 2) := by
  intro n
  induction n with
  | zero => intro current i; rfl
  | succ m ih =>
      intro current i
      have htail : timelineAux steps (max 10 (min 150 (current + steps i))) (i + 1) m
          = List.map ((fun j => pyRound (currentSeq steps current i j) 2) ∘ Nat.succ)
              (List.range m) := by
        rw [ih]
        apply List.map_congr_left
        intro j _
        simp only [Function.comp_apply]
        exact (congrArg (fun q => pyRound q 2) (currentSeq_shift steps current i j)).symm
      calc timelineAux steps current i (m + 1)
          = pyRound (max 10 (min 150 (current + steps i))) 2
              :: timelineAux steps (max 10 (min 150 (current + steps i))) (i + 1) m := rfl
        _ = pyRound (currentSeq steps current i 0) 2
              :: List.map ((fun j => pyRound (currentSeq steps current i j) 2) ∘ Nat.succ)
                  (List.range m) := by rw [htail]; rfl
        _ = List.map (fun j => pyRound (currentSeq steps current i j) 2)
              (List.range (m + 1)) := by
            rw [List.range_succ_eq_map, List.map_cons, List.map_map]

theorem timelineCurrent_eq_currentSeq (base : ℚ) (steps : ℕ → ℚ) :
    ∀ j : ℕ, timelineCurrent base steps j = currentSeq steps base 0 j := by
  intro j
  induction j with
  | zero => rfl
  | succ m ih =>
      show max 10 (min 150 (timelineCurrent base steps m + steps (m + 1)))
        = max 10 (min 150 (currentSeq steps base 0 m + steps (0 + m + 1)))
      rw [ih, Nat.zero_add]

theorem generate_timeline_eq_map (base : ℚ) (hours : ℕ) (steps : ℕ → ℚ) :
    generate_timeline_prediction base hours steps
      = (List.range hours).map (fun j => pyRound (timelineCurrent base steps j) 2) := by
  unfold generate_timeline_prediction
  rw [timelineAux_eq_map]
  apply List.map_congr_left
  intro j _
  rw [timelineCurrent_eq_currentSeq]

/-- `pyRound` fixes integers. -/
theorem pyRound_intCast (m : ℤ) (n : ℕ) : pyRound (m : ℚ) n = (m : ℚ) := by
  have hrhe : roundHalfEven ((m * 10 ^ n : ℤ) : ℚ) = m * 10 ^ n := by
    unfold roundHalfEven
    dsimp only
    rw [Int.floor_intCast, sub_self, if_pos (by norm_num)]
  unfold pyRound
  have hcast : ((m : ℚ) * 10 ^ n) = ((m * 10 ^ n : ℤ) : ℚ) := by push_cast; ring
  rw [hcast, hrhe]
  have hp : ((10 : ℚ) ^ n) ≠ 0 := by positivity
  push_cast
  field_simp

theorem isTop3Report_sorted (factors : List (String × ℚ)) :
    IsTop3Report factors (((sortedByValDesc factors).take 3).map Prod.fst) := by
  refine ⟨sortedByValDesc factors, sortedByValDesc_perm factors,
    sortedByValDesc_pairwise factors, sortedByValDesc_stable factors,
    pairwise_take_drop (sortedByValDesc_pairwise factors) 3, rfl, ?_⟩
  rw [List.length_map, List.length_take, (sortedByValDesc_perm factors).length_eq]

end Substation

namespace Substation

theorem getD_mod_mem {α : Type} (l : List α) (dflt : α) (c : ℕ) (h : l ≠ []) :
    l.getD (c % l.length) dflt ∈ l := by
  have hlen : 0 < l.length := List.length_pos.mpr h
  have hlt : c % l.length < l.length := Nat.mod_lt _ hlen
  rw [List.getD_eq_getElem l dflt hlt]
  exact List.getElem_mem hlt

theorem clip01_of_mem {x : ℚ} (h0 : 0 ≤ x) (h1 : x ≤ 1) : clip01 x = x := by
  unfold clip01 npClip
  rw [max_eq_right h0, min_eq_right h1]

theorem npClip_of_mem {x lo hi : ℚ} (h0 : lo ≤ x) (h1 : x ≤ hi) :
    npClip x lo hi = x := by
  unfold npClip
  rw [max_eq_right h0, min_eq_right h1]

theorem pyRound_clip01_nonneg (n : ℕ) (x : ℚ) : 0 ≤ pyRound (clip01 x) n := by
  have h := le_pyRound (m := 0) n (x := clip01 x) (by exact_mod_cast clip01_nonneg x)
  exact_mod_cast h

theorem pyRound_clip01_le_one (n : ℕ) (x : ℚ) : pyRound (clip01 x) n ≤ 1 := by
  have h := pyRound_le (m := 1) n (x := clip01 x) (by exact_mod_cast clip01_le_one x)
  exact_mod_cast h

theorem pyRound_npClip100_nonneg (n : ℕ) (x : ℚ) :
    0 ≤ pyRound (npClip x 0 100) n := by
  have h := le_pyRound (m := 0) n (x := npClip x 0 100)
    (by exact_mod_cast le_npClip (by norm_num))
  exact_mod_cast h

theorem pyRound_npClip100_le (n : ℕ) (x : ℚ) :
    pyRound (npClip x 0 100) n ≤ 100 := by
  have h := pyRound_le (m := 100) n (x := npClip x 0 100)
    (by exact_mod_cast npClip_le)
  exact_mod_cast h

/-- C7: merging an empty live reading with an empty asset record yields
exactly `live={}`, `asset_info={}`, `condition={}`, `maintenanceHistory=[]`,
`operationHistory=[]`, `installationYear=None`, `metadata={}`. -/
theorem merge_inputs_empty_empty :
    merge_inputs (PyVal.dict []) (PyVal.dict [])
      = Except.ok (PyVal.dict
          [ ("live", PyVal.dict []),
            ("asset_info", PyVal.dict []),
            ("condition", PyVal.dict []),
            ("maintenanceHistory", PyVal.list []),
            ("operationHistory", PyVal.list []),
            ("installationYear", PyVal.none),
            ("metadata", PyVal.dict []) ]) := rfl

/-- C6: contrary to the never-fails contract, `merge_inputs` applied to an
absent (`None`) asset record raises `AttributeError` at the unguarded
`asset.get("conditionAssessment", {})` call, although the
`isinstance(asset, dict)` guards two lines above show the non-dict case was
meant to be tolerated. -/
theorem merge_inputs_none_asset_attribute_error :
    merge_inputs (PyVal.dict []) PyVal.none = Except.error "AttributeError" := rfl

/-- C10: an empty direct-mode mapping is falsy, so `predict` treats it as
not supplied: the dispatch behaves exactly as with no `input_data` at all,
and with neither `area_code` nor `substation_id` it raises the usage
`ValueError` of the legacy branch. -/
theorem empty_input_data_falls_through_to_legacy :
    (∀ (a s : Option String), modeDispatch a s (some []) = modeDispatch a s none)
    ∧ modeDispatch none none (some [])
        = Except.error "Either input_data or both area_code and substation_id must be provided"
    ∧ modeDispatch none none none
        = Except.error "Either input_data or both area_code and substation_id must be provided" :=
  ⟨fun _ _ => rfl, rfl, rfl⟩

/-- C3: in all four real-model predictors the externally reported
`fault_probability` is the 3-decimal rounding of
`clip(0.50·fault_prob + 0.30·stress + 0.20·asset_aging, 0, 1)`. -/
theorem reported_fault_probability_is_fused_formula :
    (∀ (d : Transformer.Data) (l x : ℚ) (ir : ℤ) (c : ℕ) (st : ℕ → ℚ),
      (Transformer.predictResult d l x ir c st).fault_probability
        = pyRound (clip01 (0.50 * Transformer.fault_prob d
            + 0.30 * Transformer.env_stress d + 0.20 * Transformer.asset_aging d)) 3)
    ∧ (∀ (d : CircuitBreaker.Data) (l x : ℚ) (ir : ℤ) (c : ℕ) (st : ℕ → ℚ),
      (CircuitBreaker.predictResult d l x ir c st).fault_probability
        = pyRound (clip01 (0.50 * CircuitBreaker.fault_prob d
            + 0.30 * CircuitBreaker.op_stress d + 0.20 * CircuitBreaker.asset_aging d)) 3)
    ∧ (∀ (d : Busbar.Data) (l x : ℚ) (ir : ℤ) (c : ℕ) (st : ℕ → ℚ),
      (Busbar.predictResult d l x ir c st).fault_probability
        = pyRound (clip01 (0.50 * Busbar.fault_prob d
            + 0.30 * Busbar.thermal_stress d + 0.20 * Busbar.asset_aging d)) 3)
    ∧ (∀ (d : BayLine.Data) (l x : ℚ) (ir : ℤ) (c : ℕ) (st : ℕ → ℚ),
      (BayLine.predictResult d l x ir c st).fault_probability
        = pyRound (clip01 (0.50 * BayLine.fault_prob d
            + 0.30 * BayLine.pq_stress d + 0.20 * BayLine.asset_aging d)) 3) :=
  ⟨fun _ _ _ _ _ _ => rfl, fun _ _ _ _ _ _ => rfl,
   fun _ _ _ _ _ _ => rfl, fun _ _ _ _ _ _ => rfl⟩

/-- C2: fault selection is a pure threshold function of the pre-fusion
fault probability: below 0.55 the result is ("Normal", no subpart); at or
above 0.55 the drawn pair is a member of the component's fault library
(nonempty for all four real-model components); and each predictor's
reported pair is exactly `pick_fault_from_probability` applied to its
pre-fusion `fault_prob`, not to the fused value. -/
theorem fault_selection_threshold_and_membership :
    (∀ (component : String) (p : ℚ) (choice : ℕ), p < 0.55 →
      pick_fault_from_probability component p choice = ("Normal", none))
    ∧ (∀ (component : String) (p : ℚ) (choice : ℕ), 0.55 ≤ p →
        faultLibraryOf component ≠ [] →
        pick_fault_from_probability component p choice ∈ faultLibraryOf component)
    ∧ (faultLibraryOf "transformer" ≠ [] ∧ faultLibraryOf "circuitBreaker" ≠ []
        ∧ faultLibraryOf "busbar" ≠ [] ∧ faultLibraryOf "bayLines" ≠ [])
    ∧ (∀ (d : Transformer.Data) (l x : ℚ) (ir : ℤ) (c : ℕ) (st : ℕ → ℚ),
        ((Transformer.predictResult d l x ir c st).predicted_fault,
          (Transformer.predictResult d l x ir c st).affected_subpart)
          = pick_fault_from_probability "transformer" (Transformer.fault_prob d) c)
    ∧ (∀ (d : CircuitBreaker.Data) (l x : ℚ) (ir : ℤ) (c : ℕ) (st : ℕ → ℚ),
        ((CircuitBreaker.predictResult d l x ir c st).predicted_fault,
          (CircuitBreaker.predictResult d l x ir c st).affected_subpart)
          = pick_fault_from_probability "circuitBreaker" (CircuitBreaker.fault_prob d) c)
    ∧ (∀ (d : Busbar.Data) (l x : ℚ) (ir : ℤ) (c : ℕ) (st : ℕ → ℚ),
        ((Busbar.predictResult d l x ir c st).predicted_fault,
          (Busbar.predictResult d l x ir c st).affected_subpart)
          = pick_fault_from_probability "busbar" (Busbar.fault_prob d) c)
    ∧ (∀ (d : BayLine.Data) (l x : ℚ) (ir : ℤ) (c : ℕ) (st : ℕ → ℚ),
        ((BayLine.predictResult d l x ir c st).predicted_fault,
          (BayLine.predictResult d l x ir c st).affected_subpart)
          = pick_fault_from_probability "bayLines" (BayLine.fault_prob d) c) := by
  refine ⟨?_, ?_, ⟨?_, ?_, ?_, ?_⟩, ?_, ?_, ?_, ?_⟩
  · intro component p choice h
    unfold pick_fault_from_probability
    rw [if_pos h]
  · intro component p choice h hne
    unfold pick_fault_from_probability
    rw [if_neg (not_lt.mpr h)]
    exact getD_mod_mem _ _ _ hne
  · simp [faultLibraryOf, FAULT_LIBRARY, dictGetD]
  · simp [faultLibraryOf, FAULT_LIBRARY, dictGetD]
  · simp [faultLibraryOf, FAULT_LIBRARY, dictGetD]
  · simp [faultLibraryOf, FAULT_LIBRARY, dictGetD]
  · intro d l x ir c st; rfl
  · intro d l x ir c st; rfl
  · intro d l x ir c st; rfl
  · intro d l x ir c st; rfl

theorem fault_selection_threshold_and_membership_witness :
    (0.5 : ℚ) < 0.55 ∧ (0.55 : ℚ) ≤ 0.6
    ∧ pick_fault_from_probability "transformer" 0.5 0 = ("Normal", none)
    ∧ pick_fault_from_probability "transformer" 0.6 1 ∈ faultLibraryOf "transformer" :=
  ⟨by norm_num, by norm_num,
   fault_selection_threshold_and_membership.1 "transformer" 0.5 0 (by norm_num),
   fault_selection_threshold_and_membership.2.1 "transformer" 0.6 1 (by norm_num)
     fault_selection_threshold_and_membership.2.2.1.1⟩

/-- C8: for every real-model predictor and every input, the reported
`Top3_HealthImpactFactors` are the names of the 3 highest-valued entries of
that component's impact-factor mapping, in descending value order, with
ties kept in declaration order. -/
theorem top3_impact_factors_spec :
    (∀ (d : Transformer.Data) (l x : ℚ) (ir : ℤ) (c : ℕ) (st : ℕ → ℚ),
      IsTop3Report (Transformer.impact_factors d)
        ((Transformer.predictResult d l x ir c st).Top3_HealthImpactFactors))
    ∧ (∀ (d : CircuitBreaker.Data) (l x : ℚ) (ir : ℤ) (c : ℕ) (st : ℕ → ℚ),
      IsTop3Report (CircuitBreaker.impact_factors d)
        ((CircuitBreaker.predictResult d l x ir c st).Top3_HealthImpactFactors))
    ∧ (∀ (d : Busbar.Data) (l x : ℚ) (ir : ℤ) (c : ℕ) (st : ℕ → ℚ),
      IsTop3Report (Busbar.impact_factors d)
        ((Busbar.predictResult d l x ir c st).Top3_HealthImpactFactors))
    ∧ (∀ (d : BayLine.Data) (l x : ℚ) (ir : ℤ) (c : ℕ) (st : ℕ → ℚ),
      IsTop3Report (BayLine.impact_factors d)
        ((BayLine.predictResult d l x ir c st).Top3_HealthImpactFactors)) :=
  ⟨fun d _ _ _ _ _ => isTop3Report_sorted (Transformer.impact_factors d),
   fun d _ _ _ _ _ => isTop3Report_sorted (CircuitBreaker.impact_factors d),
   fun d _ _ _ _ _ => isTop3Report_sorted (Busbar.impact_factors d),
   fun d _ _ _ _ _ => isTop3Report_sorted (BayLine.impact_factors d)⟩

/-- C9: if any of the three required artifact files is absent,
`load_models` fails with a `FileNotFoundError`-typed error whose message
names the missing path (checked in source order LSTM, XGBoost, Isolation
Forest), and it only ever succeeds when all three files exist — it never
substitutes a default model. -/
theorem load_models_missing_artifact_fails
    (fileExists isDir lstmLoadable : String → Bool) (root name : String) :
    (fileExists (lstmPath isDir root name) = false →
      load_models fileExists isDir lstmLoadable root name
        = Except.error (.fileNotFound
            ("LSTM model not found: " ++ lstmPath isDir root name)))
    ∧ (fileExists (lstmPath isDir root name) = true →
       lstmLoadable (lstmPath isDir root name) = true →
       fileExists (xgbPath isDir root name) = false →
      load_models fileExists isDir lstmLoadable root name
        = Except.error (.fileNotFound
            ("XGBoost model not found: " ++ xgbPath isDir root name)))
    ∧ (fileExists (lstmPath isDir root name) = true →
       lstmLoadable (lstmPath isDir root name) = true →
       fileExists (xgbPath isDir root name) = true →
       fileExists (isoPath isDir root name) = false →
      load_models fileExists isDir lstmLoadable root name
        = Except.error (.fileNotFound
            ("Isolation Forest model not found: " ++ isoPath isDir root name)))
    ∧ (∀ r, load_models fileExists isDir lstmLoadable root name = Except.ok r →
        fileExists (lstmPath isDir root name) = true
        ∧ fileExists (xgbPath isDir root name) = true
        ∧ fileExists (isoPath isDir root name) = true) := by
  refine ⟨?_, ?_, ?_, ?_⟩
  · intro h1
    simp [load_models, h1]
  · intro h1 h2 h3
    simp [load_models, h1, h2, h3]
  · intro h1 h2 h3 h4
    simp [load_models, h1, h2, h3, h4]
  · intro r hok
    by_cases h1 : fileExists (lstmPath isDir root name) = true
    · by_cases h2 : lstmLoadable (lstmPath isDir root name) = true
      · by_cases h3 : fileExists (xgbPath isDir root name) = true
        · by_cases h4 : fileExists (isoPath isDir root name) = true
          · exact ⟨h1, h3, h4⟩
          · simp [load_models, h1, h2, h3, h4] at hok
        · simp [load_models, h1, h2, h3] at hok
      · simp [load_models, h1, h2] at hok
    · simp [load_models, h1] at hok

theorem load_models_missing_artifact_fails_witness :
    load_models (fun _ => false) (fun _ => false) (fun _ => false)
        "model_files" "transformer"
      = Except.error (.fileNotFound ("LSTM model not found: "
          ++ lstmPath (fun _ => false) "model_files" "transformer")) :=
  (load_models_missing_artifact_fails (fun _ => false) (fun _ => false)
    (fun _ => false) "model_files" "transformer").1 rfl

end Substation

namespace Substation

/-- A transformer reading with a 200 °C oil temperature, outside the
100 °C normalization scale. -/
def overheatedTransformer : Transformer.Data :=
  { live_OilTemperature_C := 200, live_WindingTemperature_C := 75,
    live_LoadingPercent := 80, live_Hydrogen_ppm := 50,
    live_Acetylene_ppm := 1/2, live_Moisture_ppm := 18,
    live_OilLevelPercent := 95, live_TapPosition := 9,
    installationYear := 2010 }

/-- C1 counterexample: the transformer predictor applies no clip to its
normalized features, so at oil temperature 200 the normalized value is 2,
outside [0, 1]. -/
theorem transformer_norm_feature_unclipped_cex :
    Transformer.oil_temp_norm overheatedTransformer = 2
    ∧ ¬ Transformer.oil_temp_norm overheatedTransformer ≤ 1 := by
  constructor
  · norm_num [Transformer.oil_temp_norm, overheatedTransformer]
  · norm_num [Transformer.oil_temp_norm, overheatedTransformer]

/-- C1 (amended): for the circuit-breaker, busbar and bay-line predictors
every normalized feature is clipped to [0, 1]; the transformer's
normalized features are unclipped linear ratios (see the counterexample),
but for all four components the derived stress and asset-aging values lie
in [0, 1], the reported health index lies in [0, 100], and the reported
fault probability lies in [0, 1], for every numeric raw input. -/
theorem bounded_outputs_all_components :
    (∀ (d : Transformer.Data) (l x : ℚ) (ir : ℤ) (c : ℕ) (st : ℕ → ℚ),
      (0 ≤ Transformer.env_stress d ∧ Transformer.env_stress d ≤ 1)
      ∧ (0 ≤ Transformer.asset_aging d ∧ Transformer.asset_aging d ≤ 1)
      ∧ (0 ≤ (Transformer.predictResult d l x ir c st).health_index
          ∧ (Transformer.predictResult d l x ir c st).health_index ≤ 100)
      ∧ (0 ≤ (Transformer.predictResult d l x ir c st).fault_probability
          ∧ (Transformer.predictResult d l x ir c st).fault_probability ≤ 1))
    ∧ (∀ (d : CircuitBreaker.Data) (l x : ℚ) (ir : ℤ) (c : ℕ) (st : ℕ → ℚ),
      (0 ≤ CircuitBreaker.op_time_norm d ∧ CircuitBreaker.op_time_norm d ≤ 1)
      ∧ (0 ≤ CircuitBreaker.sf6_norm d ∧ CircuitBreaker.sf6_norm d ≤ 1)
      ∧ (0 ≤ CircuitBreaker.motor_current_norm d ∧ CircuitBreaker.motor_current_norm d ≤ 1)
      ∧ (0 ≤ CircuitBreaker.op_stress d ∧ CircuitBreaker.op_stress d ≤ 1)
      ∧ (0 ≤ CircuitBreaker.asset_aging d ∧ CircuitBreaker.asset_aging d ≤ 1)
      ∧ (0 ≤ (CircuitBreaker.predictResult d l x ir c st).health_index
          ∧ (CircuitBreaker.predictResult d l x ir c st).health_index ≤ 100)
      ∧ (0 ≤ (CircuitBreaker.predictResult d l x ir c st).fault_probability
          ∧ (CircuitBreaker.predictResult d l x ir c st).fault_probability ≤ 1))
    ∧ (∀ (d : Busbar.Data) (l x : ℚ) (ir : ℤ) (c : ℕ) (st : ℕ → ℚ),
      (0 ≤ Busbar.voltage_norm d ∧ Busbar.voltage_norm d ≤ 1)
      ∧ (0 ≤ Busbar.current_norm d ∧ Busbar.current_norm d ≤ 1)
      ∧ (0 ≤ Busbar.temp_norm d ∧ Busbar.temp_norm d ≤ 1)
      ∧ (0 ≤ Busbar.thermal_stress d ∧ Busbar.thermal_stress d ≤ 1)
      ∧ (0 ≤ Busbar.asset_aging d ∧ Busbar.asset_aging d ≤ 1)
      ∧ (0 ≤ (Busbar.predictResult d l x ir c st).health_index
          ∧ (Busbar.predictResult d l x ir c st).health_index ≤ 100)
      ∧ (0 ≤ (Busbar.predictResult d l x ir c st).fault_probability
          ∧ (Busbar.predictResult d l x ir c st).fault_probability ≤ 1))
    ∧ (∀ (d : BayLine.Data) (l x : ℚ) (ir : ℤ) (c : ℕ) (st : ℕ → ℚ),
      (0 ≤ BayLine.voltage_norm d ∧ BayLine.voltage_norm d ≤ 1)
      ∧ (0 ≤ BayLine.current_norm d ∧ BayLine.current_norm d ≤ 1)
      ∧ (0 ≤ BayLine.power_norm d ∧ BayLine.power_norm d ≤ 1)
      ∧ (0 ≤ BayLine.reactive_norm d ∧ BayLine.reactive_norm d ≤ 1)
      ∧ (0 ≤ BayLine.pf_norm d ∧ BayLine.pf_norm d ≤ 1)
      ∧ (0 ≤ BayLine.freq_norm d ∧ BayLine.freq_norm d ≤ 1)
      ∧ (0 ≤ BayLine.thd_norm d ∧ BayLine.thd_norm d ≤ 1)
      ∧ (0 ≤ BayLine.pq_stress d ∧ BayLine.pq_stress d ≤ 1)
      ∧ (0 ≤ BayLine.asset_aging d ∧ BayLine.asset_aging d ≤ 1)
      ∧ (0 ≤ (BayLine.predictResult d l x ir c st).health_index
          ∧ (BayLine.predictResult d l x ir c st).health_index ≤ 100)
      ∧ (0 ≤ (BayLine.predictResult d l x ir c st).fault_probability
          ∧ (BayLine.predictResult d l x ir c st).fault_probability ≤ 1)) := by
  refine ⟨?_, ?_, ?_, ?_⟩
  · intro d l x ir c st
    exact ⟨⟨clip01_nonneg _, clip01_le_one _⟩, ⟨clip01_nonneg _, clip01_le_one _⟩,
      ⟨pyRound_npClip100_nonneg 2 _, pyRound_npClip100_le 2 _⟩,
      ⟨pyRound_clip01_nonneg 3 _, pyRound_clip01_le_one 3 _⟩⟩
  · intro d l x ir c st
    exact ⟨⟨clip01_nonneg _, clip01_le_one _⟩, ⟨clip01_nonneg _, clip01_le_one _⟩,
      ⟨clip01_nonneg _, clip01_le_one _⟩, ⟨clip01_nonneg _, clip01_le_one _⟩,
      ⟨clip01_nonneg _, clip01_le_one _⟩,
      ⟨pyRound_npClip100_nonneg 2 _, pyRound_npClip100_le 2 _⟩,
      ⟨pyRound_clip01_nonneg 3 _, pyRound_clip01_le_one 3 _⟩⟩
  · intro d l x ir c st
    exact ⟨⟨clip01_nonneg _, clip01_le_one _⟩, ⟨clip01_nonneg _, clip01_le_one _⟩,
      ⟨clip01_nonneg _, clip01_le_one _⟩, ⟨clip01_nonneg _, clip01_le_one _⟩,
      ⟨clip01_nonneg _, clip01_le_one _⟩,
      ⟨pyRound_npClip100_nonneg 2 _, pyRound_npClip100_le 2 _⟩,
      ⟨pyRound_clip01_nonneg 3 _, pyRound_clip01_le_one 3 _⟩⟩
  · intro d l x ir c st
    exact ⟨⟨clip01_nonneg _, clip01_le_one _⟩, ⟨clip01_nonneg _, clip01_le_one _⟩,
      ⟨clip01_nonneg _, clip01_le_one _⟩, ⟨clip01_nonneg _, clip01_le_one _⟩,
      ⟨clip01_nonneg _, clip01_le_one _⟩, ⟨clip01_nonneg _, clip01_le_one _⟩,
      ⟨clip01_nonneg _, clip01_le_one _⟩, ⟨clip01_nonneg _, clip01_le_one _⟩,
      ⟨clip01_nonneg _, clip01_le_one _⟩,
      ⟨pyRound_npClip100_nonneg 2 _, pyRound_npClip100_le 2 _⟩,
      ⟨pyRound_clip01_nonneg 3 _, pyRound_clip01_le_one 3 _⟩⟩

end Substation

namespace Substation

/-- The fixed transformer inputs of the round-trip property. -/
def transformerRoundTripData : Transformer.Data :=
  { live_OilTemperature_C := 60, live_WindingTemperature_C := 75,
    live_LoadingPercent := 80, live_Hydrogen_ppm := 50,
    live_Acetylene_ppm := 1/2, live_Moisture_ppm := 18,
    live_OilLevelPercent := 95, live_TapPosition := 9,
    installationYear := 2010 }

/-- C4: on the fixed transformer inputs with reference year 2025 the
derived features are asset_aging = 0.375, oil_temp_norm = 0.60,
wind_temp_norm = 0.625, loading_norm = 80/150 (0.5333 to 4 decimals),
moist_norm = 0.6; the computed health index equals
100 − 20·(0.60 + 0.625 + 80/150 + 0.6 + 0.375), which is within 0.01 of
45.33, and the reported health index is independent of the three model
outputs and also within 0.01 of 45.33. -/
theorem transformer_fixed_input_roundtrip :
    Transformer.asset_aging transformerRoundTripData = 0.375
    ∧ Transformer.oil_temp_norm transformerRoundTripData = 0.60
    ∧ Transformer.wind_temp_norm transformerRoundTripData = 0.625
    ∧ Transformer.loading_norm transformerRoundTripData = 80 / 150
    ∧ |Transformer.loading_norm transformerRoundTripData - 0.5333| ≤ 1 / 20000
    ∧ Transformer.moist_norm transformerRoundTripData = 0.6
    ∧ Transformer.health_index transformerRoundTripData
        = 100 - 20 * (0.60 + 0.625 + 80 / 150 + 0.6 + 0.375)
    ∧ |Transformer.health_index transformerRoundTripData - 45.33| ≤ 0.01
    ∧ (∀ (l x : ℚ) (ir : ℤ) (c : ℕ) (st : ℕ → ℚ),
        (Transformer.predictResult transformerRoundTripData l x ir c st).health_index
          = pyRound (Transformer.health_index transformerRoundTripData) 2)
    ∧ |pyRound (Transformer.health_index transformerRoundTripData) 2 - 45.33|
        ≤ 0.01 := by
  have haging : Transformer.asset_aging transformerRoundTripData = 0.375 := by
    simp only [Transformer.asset_aging, Transformer.CURRENT_YEAR,
      transformerRoundTripData]
    rw [clip01_of_mem (by norm_num) (by norm_num)]
    norm_num
  have hhealth : Transformer.health_index transformerRoundTripData = 136 / 3 := by
    simp only [Transformer.health_index]
    rw [haging]
    simp only [Transformer.oil_temp_norm, Transformer.wind_temp_norm,
      Transformer.loading_norm, Transformer.moist_norm, transformerRoundTripData]
    rw [npClip_of_mem (by norm_num) (by norm_num)]
    norm_num
  have hround : pyRound (Transformer.health_index transformerRoundTripData) 2
      = 4533 / 100 := by
    rw [hhealth]
    have hfloor : ⌊(136 / 3 : ℚ) * 10 ^ 2⌋ = 4533 := by
      norm_num [Int.floor_eq_iff]
    have hrhe : roundHalfEven ((136 / 3 : ℚ) * 10 ^ 2) = 4533 := by
      unfold roundHalfEven
      dsimp only
      rw [hfloor, if_pos (by norm_num)]
    unfold pyRound
    rw [hrhe]
    norm_num
  refine ⟨haging, by norm_num [Transformer.oil_temp_norm, transformerRoundTripData],
    by norm_num [Transformer.wind_temp_norm, transformerRoundTripData],
    by norm_num [Transformer.loading_norm, transformerRoundTripData],
    by norm_num [Transformer.loading_norm, transformerRoundTripData, abs_le],
    by norm_num [Transformer.moist_norm, transformerRoundTripData],
    by rw [hhealth]; norm_num,
    by rw [hhealth]; rw [abs_le]; constructor <;> norm_num,
    fun _ _ _ _ _ => rfl,
    by rw [hround]; norm_num⟩

/-- C5 counterexample: seeded at 0 (below the clamp floor), the first
timeline entry is 10, which deviates from the seed by 10 > 5, refuting the
claim that the first entry always deviates from the seed by at most 5. -/
theorem timeline_first_step_deviation_cex :
    (generate_timeline_prediction 0 24 (fun _ => 0)).head? = some 10
    ∧ ¬ |(10 : ℚ) - 0| ≤ 5 := by
  constructor
  · have h1 : (generate_timeline_prediction 0 24 (fun _ => 0)).head?
        = some (pyRound (max 10 (min 150 ((0 : ℚ) + 0))) 2) := rfl
    rw [h1]
    rw [show max (10 : ℚ) (min 150 (0 + 0)) = 10 by
      rw [show ((0 : ℚ) + 0) = 0 by ring,
        min_eq_right (by norm_num : (0 : ℚ) ≤ 150),
        max_eq_left (by norm_num : (0 : ℚ) ≤ 10)]]
    rw [show pyRound (10 : ℚ) 2 = 10 by exact_mod_cast pyRound_intCast 10 2]
  · norm_num

/-- C5 (amended): for every seed and every realization of the random
steps, the timeline has exactly 24 entries, each a 2-decimal value in
[10, 150]; the reported entries are the 2-decimal roundings of the walk's
internal values, where each internal value is the previous internal value
plus the step, clamped to [10, 150]; and when the seed itself lies in
[10, 150] and the first step is bounded by 5, the first entry deviates
from the seed by at most 5 plus the 2-decimal rounding slack 1/200. -/
theorem timeline_spec (base : ℚ) (steps : ℕ → ℚ) :
    (generate_timeline_prediction base 24 steps).length = 24
    ∧ (∀ y ∈ generate_timeline_prediction base 24 steps,
        10 ≤ y ∧ y ≤ 150 ∧ ∃ k : ℤ, y = (k : ℚ) / 100)
    ∧ generate_timeline_prediction base 24 steps
        = (List.range 24).map (fun j => pyRound (timelineCurrent base steps j) 2)
    ∧ (∀ j : ℕ, timelineCurrent base steps (j + 1)
        = max 10 (min 150 (timelineCurrent base steps j + steps (j + 1))))
    ∧ (10 ≤ base → base ≤ 150 → |steps 0| ≤ 5 →
        |pyRound (timelineCurrent base steps 0) 2 - base| ≤ 5 + 1 / 200) := by
  refine ⟨timelineAux_length steps 24 base 0, timelineAux_bounds steps 24 base 0,
    generate_timeline_eq_map base 24 steps, fun _ => rfl, ?_⟩
  intro h10 h150 hstep
  have habs := abs_le.mp hstep
  have hdev : |timelineCurrent base steps 0 - base| ≤ 5 := by
    show |max 10 (min 150 (base + steps 0)) - base| ≤ 5
    rcases le_total (base + steps 0) 150 with hle | hge
    · rw [min_eq_right hle]
      rcases le_total 10 (base + steps 0) with h2 | h2
      · rw [max_eq_right h2, abs_le]
        constructor <;> linarith [habs.1, habs.2]
      · rw [max_eq_left h2, abs_le]
        constructor <;> linarith [habs.1, habs.2]
    · rw [min_eq_left hge, max_eq_right (by norm_num : (10 : ℚ) ≤ 150), abs_le]
      constructor <;> linarith [habs.1, habs.2]
  have hround := abs_pyRound_sub 2 (timelineCurrent base steps 0)
  calc |pyRound (timelineCurrent base steps 0) 2 - base|
      ≤ |pyRound (timelineCurrent base steps 0) 2 - timelineCurrent base steps 0|
        + |timelineCurrent base steps 0 - base| := abs_sub_le _ _ _
    _ ≤ 1 / (2 * 10 ^ 2) + 5 := add_le_add hround hdev
    _ ≤ 5 + 1 / 200 := by norm_num

theorem timeline_spec_witness :
    (10 : ℚ) ≤ 70 ∧ (70 : ℚ) ≤ 150 ∧ |(0 : ℚ)| ≤ 5
    ∧ |pyRound (timelineCurrent 70 (fun _ => 0) 0) 2 - 70| ≤ 5 + 1 / 200 :=
  ⟨by norm_num, by norm_num, by norm_num,
   (timeline_spec 70 (fun _ => 0)).2.2.2.2 (by norm_num) (by norm_num)
     (by norm_num)⟩

end Substation
